import Mathlib

/-!
Shallow embedding of the wg-auto reconciliation core: the Django models
(`wireguard/models.py`), the signal receivers (`wireguard/signals.py`), the
Celery tasks (`wireguard/tasks.py`), the key generator and active-peer cache
(`wireguard/services/wireguard.py`), and the config-rendering management
command (`wireguard/management/commands/generate_wg_config.py`).

Database lookups, subprocess results and the cache are passed in explicitly
as environment values; each task is a pure function from its environment to
an outcome (returned value, propagated exception, or a retry request) plus
the list of tasks it enqueues / commands it issues.
-/

/-- The symmetric-encryption capability (`utils/crypto.py`'s `CryptoService`,
an external Fernet wrapper): `encrypt` always succeeds, `decrypt` can fail
(invalid token), modelled as `Option`. -/
structure Crypto where
  encrypt : String → String
  decrypt : String → Option String

/-- A crypto capability is sound when decryption inverts encryption. -/
def Crypto.Sound (c : Crypto) : Prop := ∀ s, c.decrypt (c.encrypt s) = some s

/-- Trivial sound crypto used to instantiate witnesses. -/
def idCrypto : Crypto := ⟨fun s => s, fun s => some s⟩

/-- Python's `str.strip()` with no argument: drop leading and trailing
whitespace. Implemented by structural recursion over the character list so
that concrete instances reduce in the kernel. -/
def pyStrip (s : String) : String :=
  String.mk (((s.data.dropWhile Char.isWhitespace).reverse.dropWhile Char.isWhitespace).reverse)

/-- The missing/unusable key-material test used throughout the source:
`not s or s.strip() in ('', '-')` (models.py:99-100, signals.py:20,
tasks.py:95). A falsy (empty) string strips to `""`, so the test reduces to
the stripped string being `""` or `"-"`. -/
def keyMissing (s : String) : Bool := pyStrip s = "" || pyStrip s = "-"

/-- `WireGuardServer` (models.py:46-204), restricted to the fields the
claims touch. -/
structure WireGuardServer where
  id : Nat
  name : String
  endpoint : String
  serverAddress : String
  privateKeyEncrypted : String
  publicKey : String
  interface : String
  port : Int
  dns : String
  allowedIps : String
  isActive : Bool
  mtu : Int
  persistentKeepalive : Int
deriving Repr, DecidableEq

/-- The placeholder assignment in `WireGuardServer.save`'s exception handler
(models.py:127-130): each key field is set to `"-"` only when it is falsy
(empty). -/
def placeholderFill (s : WireGuardServer) : WireGuardServer :=
  { s with
    publicKey := if s.publicKey = "" then "-" else s.publicKey,
    privateKeyEncrypted := if s.privateKeyEncrypted = "" then "-" else s.privateKeyEncrypted }

/-- `WireGuardServer.save` (models.py:94-141). `keygen` is the outcome of
`WireGuardService.generate_keys()`: `some (priv, pub)` when it returned,
`none` when it raised. The in-`try` check `if not private_key or not
public_key: raise ValueError` is caught by the same `except Exception`
handler, hence it lands in the placeholder branch. The handler never
re-raises, and `super().save()` runs unconditionally afterwards, so the
function always returns `some row`: a row is always durably stored
(`none` would model an aborted write; the code has no such path). -/
def serverSave (c : Crypto) (s : WireGuardServer) (keygen : Option (String × String)) :
    Option WireGuardServer :=
  if keyMissing s.privateKeyEncrypted || keyMissing s.publicKey then
    match keygen with
    | some (priv, pub) =>
      if priv = "" ∨ pub = "" then some (placeholderFill s)
      else some { s with publicKey := pub, privateKeyEncrypted := c.encrypt priv }
    | none => some (placeholderFill s)
  else some s

/-- `WireGuardPeer` (models.py:206-285). Exactly these fields are declared on
the model; in particular there is NO `persistent_keepalive` field (that field
exists only on `WireGuardServer`). The foreign key is embedded as an optional
server record. -/
structure WireGuardPeer where
  id : Nat
  name : String
  email : String
  server : Option WireGuardServer
  publicKey : String
  privateKeyEncrypted : String
  allowedIp : String
  isActive : Bool
  allowedIps : String
  dns : String
  platform : String
  serverEndpoint : String
deriving Repr, DecidableEq

/-- `WireGuardPeer.get_server` (models.py:236-240): the peer's own server if
set, else `WireGuardServer.get_default()` (passed in as `defaultServer`). -/
def peerGetServer (p : WireGuardPeer) (defaultServer : Option WireGuardServer) :
    Option WireGuardServer :=
  match p.server with
  | some s => some s
  | none => defaultServer

/-- `WireGuardPeer.get_endpoint` (models.py:242-247). -/
def peerGetEndpoint (p : WireGuardPeer) (defaultServer : Option WireGuardServer) : String :=
  if p.serverEndpoint ≠ "" then p.serverEndpoint
  else
    match peerGetServer p defaultServer with
    | some s => s.endpoint
    | none => "vpn.example.com:51820"

/-- `WireGuardPeer.get_dns` (models.py:249-254). -/
def peerGetDns (p : WireGuardPeer) (defaultServer : Option WireGuardServer) : String :=
  if p.dns ≠ "" then p.dns
  else
    match peerGetServer p defaultServer with
    | some s => s.dns
    | none => "8.8.8.8,8.8.4.4"

/-- `WireGuardPeer.get_allowed_ips` (models.py:256-261). -/
def peerGetAllowedIps (p : WireGuardPeer) (defaultServer : Option WireGuardServer) : String :=
  if p.allowedIps ≠ "" then p.allowedIps
  else
    match peerGetServer p defaultServer with
    | some s => s.allowedIps
    | none => "0.0.0.0/0"

/-- A Celery task enqueue (`.delay(...)` call), addressed by entity id. -/
inductive TaskCall where
  | onboardPeer (peerId : Nat)
  | syncConfig (serverId : Nat)
  | injectPeerLive (peerId : Nat)
deriving Repr, DecidableEq

/-- The tasks enqueued by the two `post_save` receivers on `WireGuardPeer`
(signals.py:15-45), in receiver registration order: `trigger_onboarding`
enqueues Onboard when `created or (not public_key or strip in ('', '-'))`;
`trigger_peer_injection` enqueues Inject-Peer whenever `created` is false,
with no condition on the key. -/
def peerPostSaveTasks (created : Bool) (p : WireGuardPeer) : List TaskCall :=
  (if created || keyMissing p.publicKey then [TaskCall.onboardPeer p.id] else []) ++
  (if created then [] else [TaskCall.injectPeerLive p.id])

/-- The `post_delete` receiver `trigger_peer_removal` (signals.py:48-59):
flips `is_active` on the in-memory instance and enqueues
`inject_peer_live(instance.id)`. -/
def triggerPeerRemoval (p : WireGuardPeer) : WireGuardPeer × List TaskCall :=
  ({ p with isActive := false }, [TaskCall.injectPeerLive p.id])

/-- One execution of a Celery task body: a returned status record (`done`),
an exception propagated out of the body (`fatal`, the no-retry paths), or a
`self.retry(countdown := n)` request (`retry n`). -/
inductive TaskOutcome (α : Type) where
  | done : α → TaskOutcome α
  | fatal : String → TaskOutcome α
  | retry : Nat → TaskOutcome α
deriving Repr, DecidableEq

/-- Celery worker loop, fuelled: run `step attempt`; a retry request re-runs
the body while `attempt < maxRetries`, else it surfaces as
`MaxRetriesExceededError`. Also counts how many times the body ran. -/
def runTaskGo {α : Type} (step : Nat → TaskOutcome α) (maxRetries : Nat) :
    Nat → Nat → TaskOutcome α × Nat
  | _, 0 => (TaskOutcome.fatal "out of fuel", 0)
  | attempt, fuel + 1 =>
    match step attempt with
    | TaskOutcome.retry _ =>
      if attempt < maxRetries then
        let r := runTaskGo step maxRetries (attempt + 1) fuel
        (r.1, r.2 + 1)
      else (TaskOutcome.fatal "MaxRetriesExceededError", 1)
    | out => (out, 1)

/-- Run a task under its retry policy: first attempt plus up to `maxRetries`
re-runs. Returns the final outcome and the number of executions. -/
def runTaskCount {α : Type} (step : Nat → TaskOutcome α) (maxRetries : Nat) :
    TaskOutcome α × Nat :=
  runTaskGo step maxRetries 0 (maxRetries + 1)

/-- Return value of `sync_wg_config` (tasks.py:67,70). -/
inductive SyncResult where
  | success (interface : String)
  | serverNotFound
deriving Repr, DecidableEq

/-- Environment of one `sync_wg_config` execution: the DB lookup result, and
the outcomes of each side-effecting step in body order. `teeResult` is
`some (returncode, stderr)` when the `sudo -n tee` process ran, `none` when
spawning it raised (e.g. the binary is missing). -/
structure SyncEnv where
  server : Option WireGuardServer
  decryptOk : Bool
  renderOk : Bool
  teeResult : Option (Int × String)
  chmodOk : Bool
deriving Repr, DecidableEq

/-- `@shared_task(bind=True, max_retries=2)` on `sync_wg_config` (tasks.py:40). -/
def syncMaxRetries : Nat := 2

/-- `self.retry(exc=e, countdown=10)` in `sync_wg_config` (tasks.py:79). -/
def syncRetryCountdown : Nat := 10

/-- `sync_wg_config` (tasks.py:40-79). `DoesNotExist` returns an error status;
a non-zero `tee` exit raises `PermissionError(stderr.strip())`, which the
`except PermissionError` clause re-raises (no retry); every other failure
(decrypt, render, spawn, chmod with `check=True`) falls into the generic
`except Exception` clause and requests a retry with countdown 10. -/
def syncWgConfig (env : SyncEnv) : TaskOutcome SyncResult :=
  match env.server with
  | none => TaskOutcome.done SyncResult.serverNotFound
  | some srv =>
    if env.decryptOk = false then TaskOutcome.retry syncRetryCountdown
    else if env.renderOk = false then TaskOutcome.retry syncRetryCountdown
    else
      match env.teeResult with
      | none => TaskOutcome.retry syncRetryCountdown
      | some rs =>
        if rs.1 ≠ 0 then TaskOutcome.fatal (pyStrip rs.2)
        else if env.chmodOk = false then TaskOutcome.retry syncRetryCountdown
        else TaskOutcome.done (SyncResult.success srv.interface)

/-- The failure modes of `sync_wg_config` other than "server not found" and
a failed configuration-file write: decrypt failure, render failure, failure
to spawn the write process, and a chmod failure after a successful write. -/
def syncOtherFailure (env : SyncEnv) : Prop :=
  (∃ srv, env.server = some srv) ∧
  (env.decryptOk = false ∨
   (env.decryptOk = true ∧ env.renderOk = false) ∨
   (env.decryptOk = true ∧ env.renderOk = true ∧ env.teeResult = none) ∨
   (∃ err, env.decryptOk = true ∧ env.renderOk = true ∧
     env.teeResult = some (0, err) ∧ env.chmodOk = false))

/-- A `wg set` invocation built by `inject_peer_live` (tasks.py:100-117). -/
inductive WgCmd where
  | setPeer (interface pubkey allowedIp : String) (keepalive : Option Int)
  | removePeer (interface pubkey : String)
deriving Repr, DecidableEq

/-- Return value of `inject_peer_live` (tasks.py:93,97,134,137). -/
inductive InjectResult where
  | success (peerName : String)
  | skipped (reason : String)
  | peerNotFound
deriving Repr, DecidableEq

/-- Environment of one `inject_peer_live` execution: the DB lookup by id, the
default-server resolution used by `peer.get_server()`, and the `wg set`
subprocess result (`some (returncode, stderr)`; `none` when spawning raised). -/
structure InjectEnv where
  peer : Option WireGuardPeer
  defaultServer : Option WireGuardServer
  wgResult : Option (Int × String)
deriving Repr, DecidableEq

/-- `@shared_task(bind=True, max_retries=2)` on `inject_peer_live` (tasks.py:86). -/
def injectMaxRetries : Nat := 2

/-- `self.retry(exc=e, countdown=5)` in `inject_peer_live` (tasks.py:145). -/
def injectRetryCountdown : Nat := 5

/-- `inject_peer_live` (tasks.py:86-145). Returns the task outcome and the
list of `wg` commands issued during the attempt. Skips (terminal success)
when no active server resolves or the public key is unusable; builds a
set/remove command from the peer's active flag, appending
`persistent-keepalive` when the server's value is truthy (non-zero); a
non-zero exit raises `PermissionError(stderr.strip())` which is re-raised
(no retry); a spawn failure falls to the generic handler and retries with
countdown 5. -/
def injectPeerLive (env : InjectEnv) : TaskOutcome InjectResult × List WgCmd :=
  match env.peer with
  | none => (TaskOutcome.done InjectResult.peerNotFound, [])
  | some peer =>
    match peerGetServer peer env.defaultServer with
    | none => (TaskOutcome.done (InjectResult.skipped "No active server"), [])
    | some srv =>
      if srv.isActive = false then
        (TaskOutcome.done (InjectResult.skipped "No active server"), [])
      else if keyMissing peer.publicKey then
        (TaskOutcome.done (InjectResult.skipped "No public key"), [])
      else
        let cmd :=
          if peer.isActive then
            WgCmd.setPeer srv.interface peer.publicKey peer.allowedIp
              (if srv.persistentKeepalive ≠ 0 then some srv.persistentKeepalive else none)
          else WgCmd.removePeer srv.interface peer.publicKey
        match env.wgResult with
        | none => (TaskOutcome.retry injectRetryCountdown, [cmd])
        | some rs =>
          if rs.1 ≠ 0 then (TaskOutcome.fatal (pyStrip rs.2), [cmd])
          else (TaskOutcome.done (InjectResult.success peer.name), [cmd])

/-- Classification of an exception raised by the (out-of-tree)
`services.onboarding.onboard` call, by the `except` clauses of
`onboard_peer`: `WireGuardPeer.DoesNotExist` versus anything else. -/
inductive PyFailure where
  | doesNotExist
  | other (msg : String)
deriving Repr, DecidableEq

/-- Return value of `onboard_peer` (tasks.py:26,29). -/
inductive OnboardResult where
  | success (peerId : Nat)
  | peerNotFound
deriving Repr, DecidableEq

/-- Environment of one `onboard_peer` execution: the outcome of the
`onboard(peer_id)` call (`none` = returned normally), the re-read of the
peer row, and the default-server resolution. -/
structure OnboardEnv where
  onboardCall : Option PyFailure
  peer : Option WireGuardPeer
  defaultServer : Option WireGuardServer
deriving Repr, DecidableEq

/-- `@shared_task(bind=True, max_retries=3)` on `onboard_peer` (tasks.py:13). -/
def onboardMaxRetries : Nat := 3

/-- `self.retry(exc=e, countdown=10)` in `onboard_peer` (tasks.py:33). -/
def onboardRetryCountdown : Nat := 10

/-- `onboard_peer` (tasks.py:13-33). Returns the outcome and the enqueued
tasks, in enqueue order. After a successful `onboard(peer_id)` the body
re-reads the peer and resolves `peer.server or peer.get_server()` (the same
resolution as `peerGetServer`); when a server resolves it enqueues
`sync_wg_config.delay(server.id)` then `inject_peer_live.delay(peer.id)`. -/
def onboardPeerTask (env : OnboardEnv) (peerId : Nat) :
    TaskOutcome OnboardResult × List TaskCall :=
  match env.onboardCall with
  | some PyFailure.doesNotExist => (TaskOutcome.done OnboardResult.peerNotFound, [])
  | some (PyFailure.other _) => (TaskOutcome.retry onboardRetryCountdown, [])
  | none =>
    match env.peer with
    | none => (TaskOutcome.done OnboardResult.peerNotFound, [])
    | some peer =>
      match peerGetServer peer env.defaultServer with
      | some srv =>
        (TaskOutcome.done (OnboardResult.success peerId),
         [TaskCall.syncConfig srv.id, TaskCall.injectPeerLive peer.id])
      | none => (TaskOutcome.done (OnboardResult.success peerId), [])

/-- Python's `s.split(',')`: split on every comma, keeping empty pieces.
Structurally recursive over the character list so concrete instances reduce
in the kernel. -/
def pySplitCommaAux : List Char → List Char → List String
  | [], acc => [String.mk acc.reverse]
  | c :: cs, acc =>
    if c = ',' then String.mk acc.reverse :: pySplitCommaAux cs []
    else pySplitCommaAux cs (c :: acc)

/-- Python's `s.split(',')` on a string. -/
def pySplitComma (s : String) : List String := pySplitCommaAux s.data []

/-- Python's `sep.join(parts)`. -/
def pyJoin (sep : String) : List String → String
  | [] => ""
  | [x] => x
  | x :: y :: xs => x ++ sep ++ pyJoin sep (y :: xs)

/-- The `', '.join([d.strip() for d in server.dns.split(',')])` expression in
`Command.generate_config` (generate_wg_config.py:116). -/
def dnsJoin (dns : String) : String :=
  pyJoin ", " ((pySplitComma dns).map pyStrip)

/-- Decidable equality for `Except`, used to evaluate renderer results on
concrete inputs. -/
instance {ε α : Type} [DecidableEq ε] [DecidableEq α] : DecidableEq (Except ε α) := fun a b =>
  match a, b with
  | Except.ok x, Except.ok y =>
    if h : x = y then isTrue (congrArg Except.ok h)
    else isFalse (fun hh => h (Except.ok.inj hh))
  | Except.error x, Except.error y =>
    if h : x = y then isTrue (congrArg Except.error h)
    else isFalse (fun hh => h (Except.error.inj hh))
  | Except.ok _, Except.error _ => isFalse (fun hh => Except.noConfusion hh)
  | Except.error _, Except.ok _ => isFalse (fun hh => Except.noConfusion hh)

/-- The attribute read `peer.persistent_keepalive` in `Command.generate_config`
(generate_wg_config.py:136). `WireGuardPeer` (models.py:206-285) declares no
`persistent_keepalive` field — only `WireGuardServer` has one — so this
access raises `AttributeError` for every peer it is evaluated on. -/
def peerPersistentKeepalive (_p : WireGuardPeer) : Except String Int :=
  Except.error "AttributeError: WireGuardPeer has no attribute persistent_keepalive"

/-- The per-peer loop body of `Command.generate_config`
(generate_wg_config.py:130-139), over the active peers in store order. -/
def generateConfigPeerLines : List WireGuardPeer → Except String (List String)
  | [] => Except.ok []
  | p :: rest => do
    let head := ["[Peer]",
                 "# " ++ p.name ++ " (" ++ p.platform ++ ")",
                 "PublicKey = " ++ p.publicKey,
                 "AllowedIPs = " ++ p.allowedIp]
    let ka ← peerPersistentKeepalive p
    let kaLines := if ka ≠ 0 then ["PersistentKeepalive = " ++ toString ka] else []
    let tail ← generateConfigPeerLines rest
    Except.ok (head ++ kaLines ++ [""] ++ tail)

/-- `Command.generate_config` (generate_wg_config.py:96-143). `privateKey` is
the result of the `server.get_private_key()` call having succeeded (its
failure raises `CommandError` before any rendering); `allPeers` is the
server's peer set in store order, filtered on `is_active` exactly as
`server.peers.filter(is_active=True)` does. Any error raised inside the
peer loop propagates out of the command. -/
def generateConfig (srv : WireGuardServer) (privateKey : String)
    (allPeers : List WireGuardPeer) : Except String String := do
  let base := ["[Interface]",
               "Address = " ++ srv.serverAddress,
               "ListenPort = " ++ toString srv.port,
               "PrivateKey = " ++ privateKey]
  let dnsLines := if srv.dns ≠ "" then ["DNS = " ++ dnsJoin srv.dns] else []
  let mtuLines := if srv.mtu ≠ 1420 then ["MTU = " ++ toString srv.mtu] else []
  let activePeers := allPeers.filter (fun p => p.isActive)
  let peerLines ←
    if activePeers ≠ [] then do
      let pl ← generateConfigPeerLines activePeers
      pure (["", "# Active Peers", ""] ++ pl)
    else pure []
  Except.ok (String.intercalate "\n"
    (base ++ dnsLines ++ mtuLines ++ peerLines ++ ["# End of WireGuard configuration"]))

/-- The distinct raise sites of `WireGuardService.generate_keys`
(services/wireguard.py:71-126); each constructor corresponds to one `raise`
statement, and `KeyGenError.message` recovers its exact `RuntimeError`
message. -/
inductive KeyGenError where
  | unsupportedPlatform
  | timeout
  | unavailable
  | failed (stderr : String)
  | unexpected (msg : String)
deriving Repr, DecidableEq

/-- The `RuntimeError` message of each raise site of `generate_keys`. The
empty-output errors raised inside the `try` block are caught by the final
`except Exception` clause and re-wrapped (wireguard.py:125-126), hence the
`unexpected` prefix; `failed` substitutes `"unknown error"` when the captured
stderr is falsy (wireguard.py:122). -/
def KeyGenError.message : KeyGenError → String
  | KeyGenError.unsupportedPlatform => "WireGuard is not supported on Windows"
  | KeyGenError.timeout => "WireGuard key generation timed out"
  | KeyGenError.unavailable =>
      "WireGuard binary not found at /usr/bin/wg. Install with: apt install wireguard-tools"
  | KeyGenError.failed stderr =>
      "WireGuard key generation failed: " ++
        (if stderr = "" then "unknown error" else pyStrip stderr)
  | KeyGenError.unexpected m => "Unexpected WireGuard error: " ++ m

/-- Outcome of one `subprocess.run` of the wg binary under
`capture_output=True, timeout=..., check=True`: a `TimeoutExpired`, a
`FileNotFoundError` (binary not installed), or an exit with a return code
and captured stdout/stderr. -/
inductive ProcOutcome where
  | timeout
  | notFound
  | exited (rc : Int) (stdout : String) (stderr : String)
deriving Repr, DecidableEq

/-- Environment of one `generate_keys` call: the platform flag
(`os.name == "nt"`), the outcome of the `wg genkey` invocation, and the
outcome of the `wg pubkey` invocation as a function of the private key
passed to it on standard input. -/
structure KeyGenEnv where
  isWindows : Bool
  genkey : ProcOutcome
  pubkey : String → ProcOutcome

/-- `WireGuardService.generate_keys` (services/wireguard.py:71-126). Returns
the result together with the number of subprocess invocations performed.
`check=True` turns a non-zero exit into `CalledProcessError`; an empty
trimmed stdout raises inside the `try` and is re-wrapped by the final
handler. The Windows guard raises before any invocation. -/
def generateKeys (env : KeyGenEnv) : Except KeyGenError (String × String) × Nat :=
  if env.isWindows then (Except.error KeyGenError.unsupportedPlatform, 0)
  else
    match env.genkey with
    | ProcOutcome.timeout => (Except.error KeyGenError.timeout, 1)
    | ProcOutcome.notFound => (Except.error KeyGenError.unavailable, 1)
    | ProcOutcome.exited rc out err =>
      if rc ≠ 0 then (Except.error (KeyGenError.failed err), 1)
      else
        let priv := pyStrip out
        if priv = "" then
          (Except.error (KeyGenError.unexpected "Empty private key returned"), 1)
        else
          match env.pubkey priv with
          | ProcOutcome.timeout => (Except.error KeyGenError.timeout, 2)
          | ProcOutcome.notFound => (Except.error KeyGenError.unavailable, 2)
          | ProcOutcome.exited rc2 out2 err2 =>
            if rc2 ≠ 0 then (Except.error (KeyGenError.failed err2), 2)
            else
              let pub := pyStrip out2
              if pub = "" then
                (Except.error (KeyGenError.unexpected "Empty public key returned"), 2)
              else (Except.ok (priv, pub), 2)

/-- The per-peer dictionary built by `get_active_peers`
(services/wireguard.py:40-50). `privateKey` holds the decrypted plaintext
(`peer.get_private_key()`), `serverId` is the raw FK value
(`peer.server_id`), `serverEndpoint` is `peer.get_endpoint()`. -/
structure PeerDict where
  id : Nat
  name : String
  email : String
  publicKey : String
  privateKey : String
  allowedIp : String
  serverId : Option Nat
  serverEndpoint : String
  platform : String
deriving Repr, DecidableEq

/-- Cache expiry: `timeout=None` in `cache.set` means no expiry. -/
inductive CacheTTL where
  | infinite
  | seconds (n : Nat)
deriving Repr, DecidableEq

/-- Result of a `get_active_peers` call that did not raise: the returned
list and the cache write it performed, if any (value and TTL). -/
structure ActivePeersResult where
  peers : List PeerDict
  cacheWrite : Option (List PeerDict × CacheTTL)
deriving Repr, DecidableEq

/-- Loop body of `get_active_peers` for one active peer
(services/wireguard.py:38-50): builds the dictionary; a decrypt failure in
`peer.get_private_key()` raises (`none`). -/
def peerToDict (c : Crypto) (defaultServer : Option WireGuardServer)
    (p : WireGuardPeer) : Option PeerDict :=
  match c.decrypt p.privateKeyEncrypted with
  | none => none
  | some priv =>
    some { id := p.id, name := p.name, email := p.email, publicKey := p.publicKey,
           privateKey := priv, allowedIp := p.allowedIp,
           serverId := (p.server).map (fun s => s.id),
           serverEndpoint := peerGetEndpoint p defaultServer, platform := p.platform }

/-- The `for peer in qs` loop of `get_active_peers`: the first decrypt
failure aborts the whole call (the exception propagates; no peer is
skipped). -/
def buildActivePeers (c : Crypto) (defaultServer : Option WireGuardServer) :
    List WireGuardPeer → Option (List PeerDict)
  | [] => some []
  | p :: rest =>
    match peerToDict c defaultServer p with
    | none => none
    | some d =>
      match buildActivePeers c defaultServer rest with
      | none => none
      | some l => some (d :: l)

/-- The cache-miss path of `get_active_peers` (services/wireguard.py:31-53):
filter the store on `is_active=True`, build the dictionaries (decrypted
private keys included), then `cache.set(..., timeout=None)`. -/
def getActivePeersFresh (c : Crypto) (defaultServer : Option WireGuardServer)
    (db : List WireGuardPeer) : Option ActivePeersResult :=
  match buildActivePeers c defaultServer (db.filter (fun p => p.isActive)) with
  | none => none
  | some l => some { peers := l, cacheWrite := some (l, CacheTTL.infinite) }

/-- `get_active_peers` (services/wireguard.py:22-53). `cached` is the
`cache.get` result; the `if peers:` guard makes a hit only of a truthy
(non-empty) cached list. `none` models the call raising (decrypt failure). -/
def getActivePeers (c : Crypto) (cached : Option (List PeerDict))
    (defaultServer : Option WireGuardServer) (db : List WireGuardPeer) :
    Option ActivePeersResult :=
  match cached with
  | some l =>
    if l = [] then getActivePeersFresh c defaultServer db
    else some { peers := l, cacheWrite := none }
  | none => getActivePeersFresh c defaultServer db

/-- An active server record used in concrete witnesses. -/
def demoServerActive : WireGuardServer :=
  ⟨7, "prod", "vpn.example.org:51820", "10.0.0.1/24", "ENCKEY", "SERVERPUB",
   "wg0", 51820, "8.8.8.8,8.8.4.4", "0.0.0.0/0", true, 1420, 25⟩

/-- A server record with both key fields empty, as a fresh row before its
first save. -/
def demoServerNoKeys : WireGuardServer :=
  ⟨8, "fresh", "vpn.example.org:51820", "10.0.0.1/24", "", "",
   "wg0", 51820, "8.8.8.8,8.8.4.4", "0.0.0.0/0", true, 1420, 25⟩

/-- An active peer with usable key material, no owning server. -/
def demoPeer : WireGuardPeer :=
  ⟨1, "alice", "alice@example.org", none, "PEERPUB", "PEERENC", "10.0.0.2",
   true, "0.0.0.0/0", "8.8.8.8,8.8.4.4", "linux", ""⟩

/-- An updated peer that still has an empty public key. -/
def demoPeerNoKey : WireGuardPeer :=
  ⟨2, "bob", "bob@example.org", none, "", "", "10.0.0.3",
   true, "0.0.0.0/0", "8.8.8.8,8.8.4.4", "linux", ""⟩

/-- A peer with no server reference and every override field blank. -/
def demoOrphanPeer : WireGuardPeer :=
  ⟨3, "carol", "carol@example.org", none, "CAROLPUB", "CAROLENC", "10.0.0.4",
   true, "", "", "linux", ""⟩

/-- C1 counterexample: a Server write with both key fields missing, during
which key generation fails, is NOT aborted — `WireGuardServer.save` catches
the exception, fills the empty key fields with the placeholder `"-"` and
persists the row, so a Server row with missing key material (by the code's
own missing-key test) is durably stored. -/
theorem serverSave_keygen_failure_still_persists :
    serverSave idCrypto demoServerNoKeys none ≠ none ∧
    serverSave idCrypto demoServerNoKeys none = some (placeholderFill demoServerNoKeys) ∧
    (placeholderFill demoServerNoKeys).publicKey = "-" ∧
    (placeholderFill demoServerNoKeys).privateKeyEncrypted = "-" ∧
    keyMissing (placeholderFill demoServerNoKeys).publicKey = true ∧
    keyMissing (placeholderFill demoServerNoKeys).privateKeyEncrypted = true := by
  decide

/-- C1 (amended): for a Server write with missing key material, if key
generation succeeds with non-empty keys the persisted row carries the
generated public key and a decryptable encrypted private key; if key
generation fails the write still proceeds, persisting the row with its empty
key fields replaced by the placeholder `"-"`. -/
theorem serverSave_missing_keys_spec (c : Crypto) (hc : c.Sound) (s : WireGuardServer)
    (hmiss : (keyMissing s.privateKeyEncrypted || keyMissing s.publicKey) = true) :
    (∀ priv pub, priv ≠ "" → pub ≠ "" →
      serverSave c s (some (priv, pub)) =
        some { s with publicKey := pub, privateKeyEncrypted := c.encrypt priv } ∧
      c.decrypt (c.encrypt priv) = some priv) ∧
    serverSave c s none = some (placeholderFill s) := by
  constructor
  · intro priv pub hpriv hpub
    constructor
    · simp [serverSave, hmiss, hpriv, hpub]
    · exact hc priv
  · simp [serverSave, hmiss]

/-- Witness for the C1 amended theorem at a concrete fresh server. -/
theorem serverSave_missing_keys_spec_witness :
    serverSave idCrypto demoServerNoKeys (some ("PRIV", "PUB")) =
      some { demoServerNoKeys with publicKey := "PUB", privateKeyEncrypted := "PRIV" } :=
  ((serverSave_missing_keys_spec idCrypto (fun _ => rfl) demoServerNoKeys (by decide)).1
    "PRIV" "PUB" (by decide) (by decide)).1

/-- C2: classification of every failure mode of `sync_wg_config`: a missing
server row returns the error status in a single execution; a non-zero exit of
the config-file write terminates with the propagated `PermissionError` in a
single execution (no retry); every other failure requests a retry with the
fixed countdown 10 and, persisting, runs the body exactly `max_retries + 1`
times before surfacing as a failure. -/
theorem sync_wg_config_retry_policy :
    (∀ env : SyncEnv, env.server = none →
      syncWgConfig env = TaskOutcome.done SyncResult.serverNotFound ∧
      runTaskCount (fun _ => syncWgConfig env) syncMaxRetries =
        (TaskOutcome.done SyncResult.serverNotFound, 1)) ∧
    (∀ (env : SyncEnv) (srv : WireGuardServer) (rc : Int) (err : String),
      env.server = some srv → env.decryptOk = true → env.renderOk = true →
      env.teeResult = some (rc, err) → rc ≠ 0 →
      syncWgConfig env = TaskOutcome.fatal (pyStrip err) ∧
      runTaskCount (fun _ => syncWgConfig env) syncMaxRetries =
        (TaskOutcome.fatal (pyStrip err), 1)) ∧
    (∀ env : SyncEnv, syncOtherFailure env →
      syncWgConfig env = TaskOutcome.retry syncRetryCountdown ∧
      runTaskCount (fun _ => syncWgConfig env) syncMaxRetries =
        (TaskOutcome.fatal "MaxRetriesExceededError", syncMaxRetries + 1)) ∧
    syncMaxRetries = 2 ∧ syncRetryCountdown = 10 := by
  refine ⟨?_, ?_, ?_, rfl, rfl⟩
  · intro env h
    have h1 : syncWgConfig env = TaskOutcome.done SyncResult.serverNotFound := by
      simp [syncWgConfig, h]
    exact ⟨h1, by simp [runTaskCount, syncMaxRetries, runTaskGo, h1]⟩
  · intro env srv rc err hs hdec hren htee hrc
    have h1 : syncWgConfig env = TaskOutcome.fatal (pyStrip err) := by
      simp [syncWgConfig, hs, hdec, hren, htee, hrc]
    exact ⟨h1, by simp [runTaskCount, syncMaxRetries, runTaskGo, h1]⟩
  · intro env hfail
    obtain ⟨⟨srv, hs⟩, hcase⟩ := hfail
    have h1 : syncWgConfig env = TaskOutcome.retry syncRetryCountdown := by
      rcases hcase with h | ⟨hd, hr⟩ | ⟨hd, hr, ht⟩ | ⟨err, hd, hr, ht, hc⟩
      · simp [syncWgConfig, hs, h]
      · simp [syncWgConfig, hs, hd, hr]
      · simp [syncWgConfig, hs, hd, hr, ht]
      · simp [syncWgConfig, hs, hd, hr, ht, hc]
    exact ⟨h1, by simp [runTaskCount, syncMaxRetries, runTaskGo, h1]⟩

/-- Witness for the C2 theorem: a failed config-file write with stderr
" denied " terminates fatally, stripped, without retry. -/
theorem sync_wg_config_retry_policy_witness :
    syncWgConfig ⟨some demoServerActive, true, true, some (1, " denied "), true⟩ =
      TaskOutcome.fatal "denied" := by
  have h := (sync_wg_config_retry_policy.2.1
      ⟨some demoServerActive, true, true, some (1, " denied "), true⟩
      demoServerActive 1 " denied " rfl rfl rfl rfl (by decide)).1
  have hstrip : pyStrip " denied " = "denied" := by decide
  rw [hstrip] at h
  exact h

/-- C3 counterexample: an updated (not created) peer whose public key is
still empty gets BOTH tasks enqueued — `trigger_onboarding` enqueues Onboard
and `trigger_peer_injection` unconditionally enqueues Inject-Peer on every
update — not Onboard instead of Inject-Peer. -/
theorem peer_update_missing_key_enqueues_both :
    peerPostSaveTasks false demoPeerNoKey =
      [TaskCall.onboardPeer 2, TaskCall.injectPeerLive 2] ∧
    TaskCall.injectPeerLive 2 ∈ peerPostSaveTasks false demoPeerNoKey ∧
    peerPostSaveTasks false demoPeerNoKey ≠ [TaskCall.onboardPeer 2] := by
  decide

/-- C3 (amended): on a Peer update (not creation), a usable public key leads
to exactly the Inject-Peer task being enqueued (Onboard skipped); a missing
public key leads to Onboard being enqueued in addition to — not instead of —
Inject-Peer. -/
theorem peer_update_enqueue_rules (p : WireGuardPeer) :
    (keyMissing p.publicKey = false →
      peerPostSaveTasks false p = [TaskCall.injectPeerLive p.id]) ∧
    (keyMissing p.publicKey = true →
      peerPostSaveTasks false p =
        [TaskCall.onboardPeer p.id, TaskCall.injectPeerLive p.id]) := by
  constructor <;> intro h <;> simp [peerPostSaveTasks, h]

/-- Witness for the C3 amended theorem at a peer with a usable key. -/
theorem peer_update_enqueue_rules_witness :
    peerPostSaveTasks false demoPeer = [TaskCall.injectPeerLive 1] :=
  (peer_update_enqueue_rules demoPeer).1 (by decide)

/-- C4 (code bug): `trigger_peer_removal` does mark the in-memory instance
inactive and enqueue Inject-Peer with the deleted peer's id, but when that
task runs it re-reads the row by id from the store; the row is gone, so the
task returns the "Peer not found" error status and issues no `wg` command —
the deleted peer's live-interface entry is never removed. -/
theorem peer_delete_then_inject_removes_nothing :
    triggerPeerRemoval demoPeer =
      ({ demoPeer with isActive := false }, [TaskCall.injectPeerLive 1]) ∧
    injectPeerLive ⟨none, some demoServerActive, some (0, "")⟩ =
      (TaskOutcome.done InjectResult.peerNotFound, []) := by
  decide

/-- C5 (code bug): rendering a config for a server with at least one active
peer crashes — the peer loop of `Command.generate_config` reads
`peer.persistent_keepalive`, an attribute `WireGuardPeer` does not declare
(only `WireGuardServer` has it), so an `AttributeError` propagates and no
`[Peer]` block is ever produced. With zero active peers the interface
section renders normally, showing the crash is specific to the peer loop. -/
theorem generate_config_crashes_on_active_peer :
    demoPeer.isActive = true ∧
    generateConfig demoServerActive "KEY" [demoPeer] =
      Except.error "AttributeError: WireGuardPeer has no attribute persistent_keepalive" ∧
    generateConfig demoServerActive "KEY" [] =
      Except.ok "[Interface]\nAddress = 10.0.0.1/24\nListenPort = 51820\nPrivateKey = KEY\nDNS = 8.8.8.8, 8.8.4.4\n# End of WireGuard configuration" := by
  refine ⟨rfl, rfl, ?_⟩
  decide

/-- C6: after a successful `onboard(peer_id)` call on a peer that resolves to
a server, `onboard_peer` returns success and enqueues exactly Sync-Config for
the resolved server followed by Inject-Peer for the peer, in that order. -/
theorem onboard_success_enqueues_sync_then_inject (env : OnboardEnv) (peerId : Nat)
    (peer : WireGuardPeer) (srv : WireGuardServer)
    (h1 : env.onboardCall = none) (h2 : env.peer = some peer)
    (h3 : peerGetServer peer env.defaultServer = some srv) :
    onboardPeerTask env peerId =
      (TaskOutcome.done (OnboardResult.success peerId),
       [TaskCall.syncConfig srv.id, TaskCall.injectPeerLive peer.id]) := by
  simp [onboardPeerTask, h1, h2, h3]

/-- Witness for the C6 theorem at a concrete onboarded peer. -/
theorem onboard_success_enqueues_sync_then_inject_witness :
    onboardPeerTask ⟨none, some demoPeer, some demoServerActive⟩ 1 =
      (TaskOutcome.done (OnboardResult.success 1),
       [TaskCall.syncConfig 7, TaskCall.injectPeerLive 1]) :=
  onboard_success_enqueues_sync_then_inject
    ⟨none, some demoPeer, some demoServerActive⟩ 1 demoPeer demoServerActive
    rfl rfl (by decide)

/-- C7: `inject_peer_live` on an existing peer: no resolved server, an
inactive resolved server, or an unusable public key each end in a terminal
skipped status with no command issued (and no retry); otherwise an active
peer is applied to the live interface via a `wg set` carrying the server's
keepalive exactly when it is non-zero, and an inactive peer is removed via a
`wg set ... remove`. -/
theorem inject_peer_live_spec (env : InjectEnv) (peer : WireGuardPeer)
    (hp : env.peer = some peer) :
    (peerGetServer peer env.defaultServer = none →
      injectPeerLive env =
        (TaskOutcome.done (InjectResult.skipped "No active server"), [])) ∧
    (∀ srv, peerGetServer peer env.defaultServer = some srv → srv.isActive = false →
      injectPeerLive env =
        (TaskOutcome.done (InjectResult.skipped "No active server"), [])) ∧
    (∀ srv, peerGetServer peer env.defaultServer = some srv → srv.isActive = true →
      keyMissing peer.publicKey = true →
      injectPeerLive env =
        (TaskOutcome.done (InjectResult.skipped "No public key"), [])) ∧
    (∀ (srv : WireGuardServer) (rc : Int) (err : String),
      peerGetServer peer env.defaultServer = some srv → srv.isActive = true →
      keyMissing peer.publicKey = false → peer.isActive = true →
      env.wgResult = some (rc, err) → rc = 0 →
      injectPeerLive env =
        (TaskOutcome.done (InjectResult.success peer.name),
         [WgCmd.setPeer srv.interface peer.publicKey peer.allowedIp
            (if srv.persistentKeepalive ≠ 0 then some srv.persistentKeepalive else none)])) ∧
    (∀ (srv : WireGuardServer) (rc : Int) (err : String),
      peerGetServer peer env.defaultServer = some srv → srv.isActive = true →
      keyMissing peer.publicKey = false → peer.isActive = false →
      env.wgResult = some (rc, err) → rc = 0 →
      injectPeerLive env =
        (TaskOutcome.done (InjectResult.success peer.name),
         [WgCmd.removePeer srv.interface peer.publicKey])) := by
  refine ⟨?_, ?_, ?_, ?_, ?_⟩
  · intro h
    simp [injectPeerLive, hp, h]
  · intro srv h hact
    simp [injectPeerLive, hp, h, hact]
  · intro srv h hact hkey
    simp [injectPeerLive, hp, h, hact, hkey]
  · intro srv rc err h hact hkey hpa hwg hrc
    simp [injectPeerLive, hp, h, hact, hkey, hpa, hwg, hrc]
  · intro srv rc err h hact hkey hpa hwg hrc
    simp [injectPeerLive, hp, h, hact, hkey, hpa, hwg, hrc]

/-- Witness for the C7 theorem: a concrete active peer is injected with the
server's keepalive. -/
theorem inject_peer_live_spec_witness :
    injectPeerLive ⟨some demoPeer, some demoServerActive, some (0, "")⟩ =
      (TaskOutcome.done (InjectResult.success "alice"),
       [WgCmd.setPeer "wg0" "PEERPUB" "10.0.0.2" (some 25)]) := by
  have h := (inject_peer_live_spec
      ⟨some demoPeer, some demoServerActive, some (0, "")⟩ demoPeer rfl).2.2.2.1
      demoServerActive 0 "" (by decide) (by decide) (by decide) (by decide) rfl rfl
  simpa using h

/-- C8: `generate_keys` invokes the host capability at most twice (once per
step — it never retries a step internally), exactly twice on success (genkey,
then pubkey fed the derived private key); on Windows it fails before any
invocation; a timeout of either step, the binary being absent, a non-zero
exit of either step, and an empty output of either step each produce their
own error, and the error kinds are pairwise distinct. -/
theorem generate_keys_spec :
    (∀ env : KeyGenEnv, env.isWindows = true →
      generateKeys env = (Except.error KeyGenError.unsupportedPlatform, 0)) ∧
    (∀ env : KeyGenEnv, (generateKeys env).2 ≤ 2) ∧
    (∀ env : KeyGenEnv, env.isWindows = false → env.genkey = ProcOutcome.timeout →
      generateKeys env = (Except.error KeyGenError.timeout, 1)) ∧
    (∀ env : KeyGenEnv, env.isWindows = false → env.genkey = ProcOutcome.notFound →
      generateKeys env = (Except.error KeyGenError.unavailable, 1)) ∧
    (∀ (env : KeyGenEnv) (rc : Int) (out err : String), env.isWindows = false →
      env.genkey = ProcOutcome.exited rc out err → rc ≠ 0 →
      generateKeys env = (Except.error (KeyGenError.failed err), 1)) ∧
    (∀ (env : KeyGenEnv) (rc : Int) (out err : String), env.isWindows = false →
      env.genkey = ProcOutcome.exited rc out err → rc = 0 → pyStrip out = "" →
      generateKeys env =
        (Except.error (KeyGenError.unexpected "Empty private key returned"), 1)) ∧
    (∀ (env : KeyGenEnv) (rc : Int) (out err : String), env.isWindows = false →
      env.genkey = ProcOutcome.exited rc out err → rc = 0 → pyStrip out ≠ "" →
      env.pubkey (pyStrip out) = ProcOutcome.timeout →
      generateKeys env = (Except.error KeyGenError.timeout, 2)) ∧
    (∀ (env : KeyGenEnv) (rc : Int) (out err : String), env.isWindows = false →
      env.genkey = ProcOutcome.exited rc out err → rc = 0 → pyStrip out ≠ "" →
      env.pubkey (pyStrip out) = ProcOutcome.notFound →
      generateKeys env = (Except.error KeyGenError.unavailable, 2)) ∧
    (∀ (env : KeyGenEnv) (rc rc2 : Int) (out err out2 err2 : String),
      env.isWindows = false → env.genkey = ProcOutcome.exited rc out err → rc = 0 →
      pyStrip out ≠ "" → env.pubkey (pyStrip out) = ProcOutcome.exited rc2 out2 err2 →
      rc2 ≠ 0 → generateKeys env = (Except.error (KeyGenError.failed err2), 2)) ∧
    (∀ (env : KeyGenEnv) (rc rc2 : Int) (out err out2 err2 : String),
      env.isWindows = false → env.genkey = ProcOutcome.exited rc out err → rc = 0 →
      pyStrip out ≠ "" → env.pubkey (pyStrip out) = ProcOutcome.exited rc2 out2 err2 →
      rc2 = 0 → pyStrip out2 = "" →
      generateKeys env =
        (Except.error (KeyGenError.unexpected "Empty public key returned"), 2)) ∧
    (∀ (env : KeyGenEnv) (rc rc2 : Int) (out err out2 err2 : String),
      env.isWindows = false → env.genkey = ProcOutcome.exited rc out err → rc = 0 →
      pyStrip out ≠ "" → env.pubkey (pyStrip out) = ProcOutcome.exited rc2 out2 err2 →
      rc2 = 0 → pyStrip out2 ≠ "" →
      generateKeys env = (Except.ok (pyStrip out, pyStrip out2), 2)) ∧
    (∀ s m : String,
      KeyGenError.timeout ≠ KeyGenError.unavailable ∧
      KeyGenError.failed s ≠ KeyGenError.timeout ∧
      KeyGenError.failed s ≠ KeyGenError.unavailable ∧
      KeyGenError.unexpected m ≠ KeyGenError.timeout ∧
      KeyGenError.unexpected m ≠ KeyGenError.unavailable ∧
      KeyGenError.unexpected m ≠ KeyGenError.failed s ∧
      KeyGenError.unsupportedPlatform ≠ KeyGenError.timeout ∧
      KeyGenError.unsupportedPlatform ≠ KeyGenError.unavailable) ∧
    KeyGenError.timeout.message ≠ KeyGenError.unavailable.message := by
  refine ⟨?_, ?_, ?_, ?_, ?_, ?_, ?_, ?_, ?_, ?_, ?_, ?_, by decide⟩
  · intro env h
    simp [generateKeys, h]
  · intro env
    rcases env with ⟨w, gk, pk⟩
    cases w
    · cases gk with
      | timeout => simp [generateKeys]
      | notFound => simp [generateKeys]
      | exited rc out err =>
        by_cases hrc : rc = 0
        · by_cases hout : pyStrip out = ""
          · simp [generateKeys, hrc, hout]
          · cases hpk : pk (pyStrip out) with
            | timeout => simp [generateKeys, hrc, hout, hpk]
            | notFound => simp [generateKeys, hrc, hout, hpk]
            | exited rc2 out2 err2 =>
              by_cases hrc2 : rc2 = 0
              · by_cases hout2 : pyStrip out2 = ""
                · simp [generateKeys, hrc, hout, hpk, hrc2, hout2]
                · simp [generateKeys, hrc, hout, hpk, hrc2, hout2]
              · simp [generateKeys, hrc, hout, hpk, hrc2]
        · simp [generateKeys, hrc]
    · simp [generateKeys]
  · intro env hw hg
    simp [generateKeys, hw, hg]
  · intro env hw hg
    simp [generateKeys, hw, hg]
  · intro env rc out err hw hg hrc
    simp [generateKeys, hw, hg, hrc]
  · intro env rc out err hw hg hrc hout
    simp [generateKeys, hw, hg, hrc, hout]
  · intro env rc out err hw hg hrc hout hpk
    simp [generateKeys, hw, hg, hrc, hout, hpk]
  · intro env rc out err hw hg hrc hout hpk
    simp [generateKeys, hw, hg, hrc, hout, hpk]
  · intro env rc rc2 out err out2 err2 hw hg hrc hout hpk hrc2
    simp [generateKeys, hw, hg, hrc, hout, hpk, hrc2]
  · intro env rc rc2 out err out2 err2 hw hg hrc hout hpk hrc2 hout2
    simp [generateKeys, hw, hg, hrc, hout, hpk, hrc2, hout2]
  · intro env rc rc2 out err out2 err2 hw hg hrc hout hpk hrc2 hout2
    simp [generateKeys, hw, hg, hrc, hout, hpk, hrc2, hout2]
  · intro s m
    refine ⟨?_, ?_, ?_, ?_, ?_, ?_, ?_, ?_⟩ <;> intro h <;> cases h

/-- Witness for the C8 theorem: on a non-Windows host where both steps exit
cleanly, two invocations produce the stripped key pair. -/
theorem generate_keys_spec_witness :
    generateKeys
      ⟨false, ProcOutcome.exited 0 "PRIV\n" "",
       fun _ => ProcOutcome.exited 0 "PUB\n" ""⟩ = (Except.ok ("PRIV", "PUB"), 2) := by
  have h := generate_keys_spec.2.2.2.2.2.2.2.2.2.2.1
      ⟨false, ProcOutcome.exited 0 "PRIV\n" "",
       fun _ => ProcOutcome.exited 0 "PUB\n" ""⟩
      0 0 "PRIV\n" "" "PUB\n" "" rfl rfl rfl (by decide) rfl rfl (by decide)
  have h1 : pyStrip "PRIV\n" = "PRIV" := by decide
  have h2 : pyStrip "PUB\n" = "PUB" := by decide
  rw [h1, h2] at h
  exact h

/-- C9 counterexample: a peer with no server reference and blank override
fields, when no server is active, resolves `get_server()` to none, but the
dependent reads fall back to hard-coded built-in defaults — non-empty values
that are not the peer's own override fields and not empty. -/
theorem orphan_peer_fallback_not_empty :
    peerGetServer demoOrphanPeer none = none ∧
    demoOrphanPeer.serverEndpoint = "" ∧
    demoOrphanPeer.dns = "" ∧
    demoOrphanPeer.allowedIps = "" ∧
    peerGetEndpoint demoOrphanPeer none = "vpn.example.com:51820" ∧
    peerGetEndpoint demoOrphanPeer none ≠ "" ∧
    peerGetDns demoOrphanPeer none = "8.8.8.8,8.8.4.4" ∧
    peerGetDns demoOrphanPeer none ≠ "" ∧
    peerGetAllowedIps demoOrphanPeer none = "0.0.0.0/0" ∧
    peerGetAllowedIps demoOrphanPeer none ≠ "" := by
  decide

/-- C9 (amended): a peer with no server reference resolves `get_server()` to
the default-server lookup result; when that is none, the dependent reads are
total (never raise) and return the peer's own override field when it is
non-empty, and a hard-coded built-in default — "vpn.example.com:51820",
"8.8.8.8,8.8.4.4", "0.0.0.0/0" respectively — when the override is blank. -/
theorem peer_getters_fallback_spec (p : WireGuardPeer) (d : Option WireGuardServer) :
    (p.server = none → peerGetServer p d = d) ∧
    (peerGetServer p d = none →
      (p.serverEndpoint ≠ "" → peerGetEndpoint p d = p.serverEndpoint) ∧
      (p.serverEndpoint = "" → peerGetEndpoint p d = "vpn.example.com:51820") ∧
      (p.dns ≠ "" → peerGetDns p d = p.dns) ∧
      (p.dns = "" → peerGetDns p d = "8.8.8.8,8.8.4.4") ∧
      (p.allowedIps ≠ "" → peerGetAllowedIps p d = p.allowedIps) ∧
      (p.allowedIps = "" → peerGetAllowedIps p d = "0.0.0.0/0")) := by
  constructor
  · intro h
    simp [peerGetServer, h]
  · intro h
    refine ⟨?_, ?_, ?_, ?_, ?_, ?_⟩ <;> intro h2 <;>
      simp [peerGetEndpoint, peerGetDns, peerGetAllowedIps, h, h2]

/-- Witness for the C9 amended theorem: the orphan peer's endpoint read
returns the built-in default. -/
theorem peer_getters_fallback_spec_witness :
    peerGetEndpoint demoOrphanPeer none = "vpn.example.com:51820" :=
  ((peer_getters_fallback_spec demoOrphanPeer none).2 (by decide)).2.1 rfl

/-- Helper: inverting a successful `peerToDict`: the dictionary's private key
is the decrypted plaintext. -/
theorem peerToDict_privateKey (c : Crypto) (d : Option WireGuardServer)
    (p : WireGuardPeer) (dict : PeerDict) (h : peerToDict c d p = some dict) :
    c.decrypt p.privateKeyEncrypted = some dict.privateKey := by
  unfold peerToDict at h
  rcases hd : c.decrypt p.privateKeyEncrypted with _ | priv
  · rw [hd] at h
    cases h
  · rw [hd] at h
    injection h with h2
    subst h2
    rfl

/-- Helper: a decrypt failure on any member of the traversed peer list makes
the whole build raise. -/
theorem buildActivePeers_error (c : Crypto) (d : Option WireGuardServer) :
    ∀ (l : List WireGuardPeer) (p : WireGuardPeer), p ∈ l →
      c.decrypt p.privateKeyEncrypted = none →
      buildActivePeers c d l = none := by
  intro l
  induction l with
  | nil =>
    intro p hp
    cases hp
  | cons q rest ih =>
    intro p hp hdec
    rcases List.mem_cons.mp hp with h | h
    · subst h
      simp [buildActivePeers, peerToDict, hdec]
    · cases hq : peerToDict c d q with
      | none => simp [buildActivePeers, hq]
      | some dq => simp [buildActivePeers, hq, ih p h hdec]

/-- Helper: on a successful build, every returned dictionary carries the
decrypted plaintext private key of a traversed peer. -/
theorem buildActivePeers_plaintext (c : Crypto) (d : Option WireGuardServer) :
    ∀ (l : List WireGuardPeer) (res : List PeerDict),
      buildActivePeers c d l = some res →
      ∀ dict ∈ res, ∃ p ∈ l, c.decrypt p.privateKeyEncrypted = some dict.privateKey := by
  intro l
  induction l with
  | nil =>
    intro res h dict hd
    simp [buildActivePeers] at h
    subst h
    cases hd
  | cons q rest ih =>
    intro res h dict hd
    rcases hq : peerToDict c d q with _ | dq
    · simp [buildActivePeers, hq] at h
    · rcases hr : buildActivePeers c d rest with _ | lr
      · simp [buildActivePeers, hq, hr] at h
      · simp [buildActivePeers, hq, hr] at h
        subst h
        rcases List.mem_cons.mp hd with h1 | h1
        · subst h1
          exact ⟨q, List.mem_cons_self q rest, peerToDict_privateKey c d q dict hq⟩
        · obtain ⟨p, hp, hdp⟩ := ih lr hr dict h1
          exact ⟨p, List.mem_cons_of_mem q hp, hdp⟩

/-- C10: on a cache miss, `get_active_peers` builds one dictionary per active
peer with the decrypted plaintext private key inside, returns that list and
writes it — plaintext keys included — to the cache with no expiry; and if any
active peer's stored ciphertext fails to decrypt, the whole call raises
instead of skipping that peer. -/
theorem get_active_peers_spec (c : Crypto) (d : Option WireGuardServer)
    (db : List WireGuardPeer) :
    (∀ res : List PeerDict,
      buildActivePeers c d (db.filter (fun p => p.isActive)) = some res →
      getActivePeers c none d db =
        some { peers := res, cacheWrite := some (res, CacheTTL.infinite) } ∧
      ∀ dict ∈ res, ∃ p ∈ db.filter (fun p => p.isActive),
        c.decrypt p.privateKeyEncrypted = some dict.privateKey) ∧
    (∀ p : WireGuardPeer, p ∈ db → p.isActive = true →
      c.decrypt p.privateKeyEncrypted = none →
      getActivePeers c none d db = none) := by
  constructor
  · intro res h
    constructor
    · simp [getActivePeers, getActivePeersFresh, h]
    · exact buildActivePeers_plaintext c d _ res h
  · intro p hp hact hdec
    have hmem : p ∈ db.filter (fun q => q.isActive) :=
      List.mem_filter.mpr ⟨hp, by simp [hact]⟩
    simp [getActivePeers, getActivePeersFresh,
      buildActivePeers_error c d _ p hmem hdec]

/-- Witness for the C10 theorem at a one-peer store under the identity
crypto capability. -/
theorem get_active_peers_spec_witness :
    getActivePeers idCrypto none none [demoPeer] =
      some { peers := [⟨1, "alice", "alice@example.org", "PEERPUB", "PEERENC",
                        "10.0.0.2", none, "vpn.example.com:51820", "linux"⟩],
             cacheWrite := some ([⟨1, "alice", "alice@example.org", "PEERPUB", "PEERENC",
                        "10.0.0.2", none, "vpn.example.com:51820", "linux"⟩],
               CacheTTL.infinite) } :=
  ((get_active_peers_spec idCrypto none [demoPeer]).1
    [⟨1, "alice", "alice@example.org", "PEERPUB", "PEERENC",
      "10.0.0.2", none, "vpn.example.com:51820", "linux"⟩] (by decide)).1
